import Mathlib

/-!
Verification of the GGIR calibration core (`src/wristpy/ggir/calibration.py`).

The embedding models the two functions of the calibration module,
`closest_point_fit` and `start_ggir_calibration`, together with
`apply_calibration`, over exact rationals.

Modelling conventions, stated once:

* A polars data frame of triaxial samples is a `List Vec3`; the paired time
  column is a `List ℚ`.
* The rolling mean / rolling standard deviation provider
  (`wristpy.ggir.metrics_calc.moving_mean_fast` / `moving_SD_fast`) is not part
  of the calibration module and its file is not in the repository snapshot; the
  specification treats it as an external black box.  It is therefore a
  parameter (`Providers`) of every definition that needs it.
* `np.linalg.norm` of a row is the Euclidean norm, an irrational-valued
  function; it is passed as a parameter `norm3 : Vec3 → ℚ` so that the
  development stays executable over ℚ.  No theorem below depends on the values
  this function takes; concrete instantiations in witnesses pick a concrete
  computable function.
* Python `int()` truncates toward zero (`pyInt`); Python slicing `xs[:m]`
  clamps and supports negative indices (`pySlice`); Python list indexing with a
  negative index wraps from the end (`pyGet`).
* Fallible Python behaviour is explicit: comparing `None` (the polars
  `min`/`max` of an empty series) with a float raises `TypeError`, modelled by
  `Except PyError`.  The unbounded `while` loop of the orchestrator is run on
  explicit fuel; exhausting the fuel is reported as a distinguished outcome.
* Where IEEE semantics and field semantics differ on code paths no theorem
  depends on, the IEEE behaviour is kept where it is expressible
  (`1/0 = +inf`, so `np.minimum(1/0, 100) = 100` in the weight update), and
  noted otherwise (division by zero in ℚ is 0).
-/

namespace Wristpy

/-- One triaxial sample: the X, Y, Z columns of the acceleration table. -/
structure Vec3 where
  x : ℚ
  y : ℚ
  z : ℚ
deriving DecidableEq, Repr

/-- Elementwise product of two per-axis vectors. -/
def Vec3.mul (a b : Vec3) : Vec3 := ⟨a.x * b.x, a.y * b.y, a.z * b.z⟩

/-- Elementwise sum of two per-axis vectors. -/
def Vec3.add (a b : Vec3) : Vec3 := ⟨a.x + b.x, a.y + b.y, a.z + b.z⟩

/-- Elementwise quotient of two per-axis vectors. -/
def Vec3.div (a b : Vec3) : Vec3 := ⟨a.x / b.x, a.y / b.y, a.z / b.z⟩

/-- A Python run-time error.  The only one the calibration module can raise on
its own is `TypeError`, from comparing `None` with a float. -/
inductive PyError where
  | typeError
deriving DecidableEq, Repr

/-- A dynamically typed numeric value, as stored in the `scale` / `offset`
fields of `OutputData`: the failure branches store the integer `0`, the success
branch stores a 3-vector. -/
inductive PyVal where
  | int (z : ℤ)
  | vec (v : Vec3)
deriving DecidableEq, Repr

/-- A `warnings.warn` advisory emitted by `start_ggir_calibration`. -/
inductive Advisory where
  | insufficientData
  | calibrationInvalid (hoursLo hoursHi : ℤ)
deriving DecidableEq, Repr

/-- Python `int()` on a float/rational: truncation toward zero. -/
def pyInt (q : ℚ) : ℤ := if q < 0 then -(Int.floor (-q)) else Int.floor q

/-- Python slicing `xs[:m]`: clamps at the length, and a negative `m` counts
from the end. -/
def pySlice {α : Type} (l : List α) (m : ℤ) : List α :=
  if 0 ≤ m then l.take m.toNat else l.take ((l.length : ℤ) + m).toNat

/-- Python list indexing `xs[i]`, with negative-index wraparound; `none` when
the index is out of range. -/
def pyGet {α : Type} (l : List α) (i : ℤ) : Option α :=
  if 0 ≤ i then l.get? i.toNat
  else if -i ≤ (l.length : ℤ) then l.get? ((l.length : ℤ) + i).toNat
  else none

/-- `np.round(q, decimals=5)`.  (NumPy breaks ties to even; `round` breaks them
upward.  No theorem below evaluates `round5` at a tie.) -/
def round5 (q : ℚ) : ℚ := (round (q * 100000) : ℤ) / 100000

/-- Modelled from the spec: the Window Statistics Provider (spec §6), i.e.
`moving_SD_fast` / `moving_mean_fast` from `wristpy.ggir.metrics_calc`, a
module that is not part of the calibration core and is absent from the
snapshot.  Each function takes the acceleration table, the time table and a
window length in seconds and returns one rolling-statistics row per retained
sample. -/
structure Providers where
  movingSD : List Vec3 → List ℚ → ℕ → List Vec3
  movingMean : List Vec3 → List ℚ → ℕ → List Vec3

/-- The stillness mask for one statistics row (calibration.py line 205):
`np.all(acc_SD < sd_crit, axis=1) & np.all(np.abs(acc_mean) < 2, axis=1)`. -/
def noMotionRow (sd m : Vec3) (sd_crit : ℚ) : Bool :=
  (decide (sd.x < sd_crit) && decide (sd.y < sd_crit) && decide (sd.z < sd_crit)) &&
  (decide (|m.x| < 2) && decide (|m.y| < 2) && decide (|m.z| < 2))

/-- Lines 196–208: rolling statistics over a 10-second window, the stillness
mask, and the rolling-mean rows selected by the mask (`acc_mean_noMotion`). -/
def noMotionSet (P : Providers) (accel : List Vec3) (time : List ℚ) (sd_crit : ℚ) :
    List Vec3 :=
  let accSD := P.movingSD accel time 10
  let accMean := P.movingMean accel time 10
  (List.zip accSD accMean).filterMap
    (fun p => if noMotionRow p.1 p.2 sd_crit then some p.2 else none)

/-- Lines 216–218 for one column: `(col.min() < -sphere_crit) & (col.max() >
sphere_crit)`.  On an empty column polars `min`/`max` return `None`, and
comparing `None` with a float raises `TypeError`. -/
def axisCheck (vals : List ℚ) (sphere_crit : ℚ) : Except PyError Bool :=
  match vals.min?, vals.max? with
  | some mn, some mx => .ok (decide (mn < -sphere_crit) && decide (sphere_crit < mx))
  | _, _ => .error .typeError

/-- Lines 214–220: `GGIR_check`, the number of axes whose no-motion values span
both sides of the sphere criterion, columns visited in X, Y, Z order. -/
def sphereCount (rows : List Vec3) (sphere_crit : ℚ) : Except PyError ℕ :=
  match axisCheck (rows.map Vec3.x) sphere_crit,
        axisCheck (rows.map Vec3.y) sphere_crit,
        axisCheck (rows.map Vec3.z) sphere_crit with
  | .ok cx, .ok cy, .ok cz =>
      .ok ((if cx then 1 else 0) + (if cy then 1 else 0) + (if cz then 1 else 0))
  | .error e, _, _ => .error e
  | _, .error e, _ => .error e
  | _, _, .error e => .error e

/-- `apply_calibration` (lines 154–165): per axis
`out[axis] = table[axis] * scale[axis] + offset[axis]`.  The same elementwise
expression `(table * scale) + offset` also appears inside `closest_point_fit`
(lines 239 and 266). -/
def apply_calibration (accel_raw : List Vec3) (scale offset : Vec3) : List Vec3 :=
  accel_raw.map (fun r =>
    ⟨r.x * scale.x + offset.x, r.y * scale.y + offset.y, r.z * scale.z + offset.z⟩)

/-- The state threaded through the regression loop of `closest_point_fit`:
the running offset and scale, the per-sample weights, the residual history
(`none` is the initial `np.Inf` sentinel), and the number of rounds executed
so far. -/
structure FitState where
  offset : Vec3
  scale : Vec3
  weights : List ℚ
  residual : List (Option ℚ)
  iters : ℕ
deriving DecidableEq, Repr

/-- Weighted least squares `y ≈ intercept + slope * x` as computed by the
external `sklearn.linear_model.LinearRegression.fit` with `sample_weight`:
`slope = Σ w (x - x̄)(y - ȳ) / Σ w (x - x̄)²` with weighted means, and
`intercept = ȳ - slope * x̄`.  Returns `(intercept, slope)`. -/
def linRegFit (xs ys ws : List ℚ) : ℚ × ℚ :=
  let W := ws.sum
  let xbar := (List.zipWith (fun w x => w * x) ws xs).sum / W
  let ybar := (List.zipWith (fun w y => w * y) ws ys).sum / W
  let sxx := (List.zipWith (fun w x => w * (x - xbar) * (x - xbar)) ws xs).sum
  let sxy := (List.zipWith (fun wx y => wx * (y - ybar))
      (List.zipWith (fun w x => w * (x - xbar)) ws xs) ys).sum
  (ybar - sxy / sxx * xbar, sxy / sxx)

/-- Lines 239–250: compute `curr`, project it onto the unit sphere, and run the
three per-axis regressions; returns `(offsetch, scalech)`, the per-axis
intercepts and slopes of this round. -/
def roundIncrements (norm3 : Vec3 → ℚ) (data : List Vec3) (st : FitState) :
    Vec3 × Vec3 :=
  let curr := apply_calibration data st.scale st.offset
  let closest := curr.map (fun r => let n := norm3 r; (⟨r.x / n, r.y / n, r.z / n⟩ : Vec3))
  let rx := linRegFit (curr.map Vec3.x) (closest.map Vec3.x) st.weights
  let ry := linRegFit (curr.map Vec3.y) (closest.map Vec3.y) st.weights
  let rz := linRegFit (curr.map Vec3.z) (closest.map Vec3.z) st.weights
  (⟨rx.1, ry.1, rz.1⟩, ⟨rx.2, ry.2, rz.2⟩)

/-- One round of the loop body, lines 239–261: regressions, the GGIR
composition of the increments into the running parameters
(`scale = scalech * scale`; `offset = offsetch + offset / scale`, dividing by
the just-reassigned scale), the residual
`3 * np.mean(weights[:,None] * (curr - closest_point)**2 / weights.sum())`
(a mean over all `3·n` matrix entries, where each axis column of `curr` has
been overwritten with `x_ @ LR.coef_`, the slope-only fitted values), and the
weight update `np.minimum(1 / ‖curr - closest_point‖, 100)` (per IEEE
semantics, a zero distance gives `1/0 = +inf`, capped to `100`). -/
def fitRound (norm3 : Vec3 → ℚ) (data : List Vec3) (st : FitState) : FitState :=
  let curr := apply_calibration data st.scale st.offset
  let closest := curr.map (fun r => let n := norm3 r; (⟨r.x / n, r.y / n, r.z / n⟩ : Vec3))
  let inc := roundIncrements norm3 data st
  let offsetch := inc.1
  let scalech := inc.2
  let curr2 : List Vec3 :=
    curr.map (fun r => (⟨r.x * scalech.x, r.y * scalech.y, r.z * scalech.z⟩ : Vec3))
  let scale2 := Vec3.mul scalech st.scale
  let offset2 := Vec3.add offsetch (Vec3.div st.offset scale2)
  let diffs := List.zipWith (fun a b => Vec3.mk (a.x - b.x) (a.y - b.y) (a.z - b.z))
    curr2 closest
  let W := st.weights.sum
  let total := (List.zipWith
    (fun w d => w * d.x ^ 2 / W + w * d.y ^ 2 / W + w * d.z ^ 2 / W)
    st.weights diffs).sum
  let res := 3 * (total / (3 * (data.length : ℚ)))
  let weights2 := diffs.map (fun d =>
    let nd := norm3 d
    if nd = 0 then (100 : ℚ) else min (1 / nd) 100)
  ⟨offset2, scale2, weights2, st.residual ++ [some res], st.iters + 1⟩

/-- Line 263: `abs(residual[i] - residual[i - 1]) < tol`, with Python indexing
(`residual[-1]` is the last element) and IEEE comparison semantics: any
comparison involving the `np.Inf` sentinel (`none`) is false.  (An out-of-range
index cannot arise in the loop, where the list has length `i + 2`.) -/
def convergenceBreak (residual : List (Option ℚ)) (i : ℕ) (tol : ℚ) : Bool :=
  match pyGet residual (i : ℤ), pyGet residual ((i : ℤ) - 1) with
  | some (some a), some (some b) => decide (|a - b| < tol)
  | _, _ => false

/-- Lines 238–264: `for i in range(max_iter)` over the loop body, breaking when
`convergenceBreak` holds after the body.  `fuel` is the number of rounds still
allowed, `i` the Python loop index. -/
def runFit (norm3 : Vec3 → ℚ) (data : List Vec3) (tol : ℚ) :
    ℕ → ℕ → FitState → FitState
  | 0, _, st => st
  | fuel + 1, i, st =>
    let st2 := fitRound norm3 data st
    if convergenceBreak st2.residual i tol then st2
    else runFit norm3 data tol fuel (i + 1) st2

/-- The starting state of the regression loop (lines 225–231): zero offset,
unit scale, uniform weight 100, residual history `[np.Inf]`. -/
def initFitState (rows : List Vec3) : FitState :=
  ⟨⟨0, 0, 0⟩, ⟨1, 1, 1⟩, rows.map (fun _ => (100 : ℚ)), [none], 0⟩

/-- The state after the full regression loop. -/
def fitFinalState (norm3 : Vec3 → ℚ) (rows : List Vec3) (max_iter : ℕ) (tol : ℚ) :
    FitState :=
  runFit norm3 rows tol max_iter 0 (initFitState rows)

/-- Lines 234–236 and 267–269: the calibration error of a set of rows, the mean
absolute deviation of the per-row norm from 1, rounded to 5 decimals. -/
def calErr (norm3 : Vec3 → ℚ) (rows : List Vec3) : ℚ :=
  round5 ((rows.map (fun r => |norm3 r - 1|)).sum / (rows.length : ℚ))

/-- The tuple returned by `closest_point_fit`:
`finished, offset, scale, cal_err_start, cal_err_end`, plus the number of
regression rounds that were executed (zero on the early sphere-coverage
exit). -/
structure FitResult where
  finished : Bool
  offset : Vec3
  scale : Vec3
  calErrStart : ℚ
  calErrEnd : ℚ
  iters : ℕ
deriving DecidableEq, Repr

/-- `closest_point_fit` (lines 168–275). -/
def closest_point_fit (P : Providers) (norm3 : Vec3 → ℚ)
    (accel_data : List Vec3) (time_data : List ℚ)
    (sd_crit sphere_crit : ℚ) (max_iter : ℕ) (tol : ℚ) :
    Except PyError FitResult :=
  let rows := noMotionSet P accel_data time_data sd_crit
  match sphereCount rows sphere_crit with
  | .error e => .error e
  | .ok c =>
    if c ≠ 3 then
      -- line 223: `return False, offset, scale, 0, 0` with the initial
      -- np.zeros(3) offset and np.ones(3) scale
      .ok ⟨false, ⟨0, 0, 0⟩, ⟨1, 1, 1⟩, 0, 0, 0⟩
    else
      let errStart := calErr norm3 rows
      let stF := fitFinalState norm3 rows max_iter tol
      let errEnd := calErr norm3 (apply_calibration rows stF.scale stF.offset)
      if errEnd < errStart ∧ errEnd < 1 / 100 then
        .ok ⟨true, stF.offset, stF.scale, errStart, errEnd, stF.iters⟩
      else
        .ok ⟨false, stF.offset, stF.scale, errStart, errEnd, stF.iters⟩

/-- The fields of `InputData` the calibration reads, plus one opaque field
standing for the six auxiliary tables (`lux_df`, `lux_df_mean`, `battery_df`,
`battery_df_upsample`, `capsense_df`, `capsense_df_upsample`) that are
forwarded unchanged into the output. -/
structure InputData where
  acceleration : List Vec3
  time : List ℚ
  sampling_rate : ℚ
  aux : List ℚ
deriving DecidableEq, Repr

/-- The `OutputData` record built by `start_ggir_calibration` (the fields the
calibration writes; `aux` stands for the six pass-through tables). -/
structure OutputData where
  cal_acceleration : List Vec3
  scale : PyVal
  offset : PyVal
  sampling_rate : ℚ
  cal_error_start : ℚ
  cal_error_end : ℚ
  time : List ℚ
  aux : List ℚ
deriving DecidableEq, Repr

/-- Bookkeeping for one round of the expanding-window loop: the Python slice
bound `nh + i_h * n12h`, the trimmed tables actually handed to
`closest_point_fit`, and the fit it returned. -/
structure Attempt where
  w : ℤ
  accelW : List Vec3
  timeW : List ℚ
  res : FitResult
deriving DecidableEq, Repr

/-- The observable outcome of `start_ggir_calibration`: a normal return
(with the per-round trace and the emitted advisories), a propagated Python
exception, or exhaustion of the explicit fuel bounding the `while` loop. -/
inductive CalOutcome where
  | ok (trace : List Attempt) (warnings : List Advisory) (out : OutputData)
  | pyError (e : PyError)
  | fuelOut (trace : List Attempt)
deriving DecidableEq, Repr

/-- Number of fit attempts recorded in an outcome. -/
def CalOutcome.attemptCount : CalOutcome → ℕ
  | .ok tr _ _ => tr.length
  | .pyError _ => 0
  | .fuelOut tr => tr.length

/-- Whether the outcome is fuel exhaustion of the `while` loop. -/
def CalOutcome.isFuelOut : CalOutcome → Bool
  | .fuelOut _ => true
  | _ => false

/-- The context fixed throughout one `start_ggir_calibration` call. -/
structure CalCtx where
  P : Providers
  norm3 : Vec3 → ℚ
  accel : List Vec3
  time : List ℚ
  aux : List ℚ
  rate : ℚ
  sphere_crit : ℚ
  min_hours : ℤ
  sd_crit : ℚ
  max_iter : ℕ
  tol : ℚ
  nh : ℤ
  n12h : ℤ

/-- The slice bound of round `i`: `nh + i * n12h` (line 93). -/
def winAt (c : CalCtx) (i : ℤ) : ℤ := c.nh + i * c.n12h

/-- The fitter call of one round (lines 95–108): `closest_point_fit` on the
leading `w` samples of both tables. -/
def fitAt (c : CalCtx) (w : ℤ) : Except PyError FitResult :=
  closest_point_fit c.P c.norm3 (pySlice c.accel w) (pySlice c.time w)
    c.sd_crit c.sphere_crit c.max_iter c.tol

/-- The `OutputData` of the giving-up branch (lines 117–131): raw data, scalar
zero scale and offset, zero errors, original time. -/
def invalidOut (c : CalCtx) : OutputData :=
  ⟨c.accel, .int 0, .int 0, c.rate, 0, 0, c.time, c.aux⟩

/-- The `OutputData` of the success branch (lines 134–151): the affine
transform applied to the entire original table, the fit parameters and errors,
and the original time. -/
def acceptedOut (c : CalCtx) (r : FitResult) : OutputData :=
  ⟨apply_calibration c.accel r.scale r.offset, .vec r.scale, .vec r.offset,
    c.rate, r.calErrStart, r.calErrEnd, c.time, c.aux⟩

/-- The `while not finished` loop (lines 92–132), on explicit fuel.  Each round
slices the leading `nh + i_h * n12h` samples, runs the fitter, and either
finishes with the accepted parameters, gives up when the window already covers
the whole dataset (warning about the attempted hour range, which references
`i_h - 1`), or retries with `i_h + 1`. -/
def calLoopAux (c : CalCtx) : ℕ → ℤ → List Attempt → CalOutcome
  | 0, _, tr => .fuelOut tr
  | fuel + 1, i_h, tr =>
    let w := winAt c i_h
    match fitAt c w with
    | .error e => .pyError e
    | .ok r =>
      let tr2 := tr ++ [⟨w, pySlice c.accel w, pySlice c.time w, r⟩]
      if r.finished then .ok tr2 [] (acceptedOut c r)
      else if (c.accel.length : ℤ) ≤ w then
        .ok tr2 [.calibrationInvalid (c.min_hours + (i_h - 1) * 12)
          (c.min_hours + i_h * 12)] (invalidOut c)
      else calLoopAux c fuel (i_h + 1) tr2

/-- Packaging of the arguments of `start_ggir_calibration` (lines 56–63):
`nh = int(min_hours * 3600 * sampling_rate)`,
`n12h = int(12 * 3600 * sampling_rate)`. -/
def mkCtx (P : Providers) (norm3 : Vec3 → ℚ) (input : InputData)
    (sphere_crit : ℚ) (min_hours : ℤ) (sd_crit : ℚ) (max_iter : ℕ) (tol : ℚ) :
    CalCtx :=
  ⟨P, norm3, input.acceleration, input.time, input.aux, input.sampling_rate,
    sphere_crit, min_hours, sd_crit, max_iter, tol,
    pyInt ((min_hours : ℚ) * 3600 * input.sampling_rate),
    pyInt (12 * 3600 * input.sampling_rate)⟩

/-- `start_ggir_calibration` (lines 13–151).  There is no input validation: the
function goes straight from computing `nh` to the data-quantity check.  If
fewer than `nh` samples exist the raw data comes back unmodified with scalar
zero parameters, zero errors and a `UserWarning`; otherwise the expanding
window loop runs.  The fuel is large enough that, whenever
`n12h ≥ 1`, it is never exhausted (`calibrate_termination` below). -/
def calRun (c : CalCtx) : CalOutcome :=
  if (c.accel.length : ℤ) < c.nh then
    .ok [] [.insufficientData]
      ⟨c.accel, .int 0, .int 0, c.rate, 0, 0, c.time, c.aux⟩
  else
    calLoopAux c (c.accel.length + c.nh.natAbs + c.n12h.natAbs + 2) 0 []

/-- `start_ggir_calibration` proper: build the context and run. -/
def start_ggir_calibration (P : Providers) (norm3 : Vec3 → ℚ) (input : InputData)
    (sphere_crit : ℚ) (min_hours : ℤ) (sd_crit : ℚ) (max_iter : ℕ) (tol : ℚ) :
    CalOutcome :=
  calRun (mkCtx P norm3 input sphere_crit min_hours sd_crit max_iter tol)

/-- Ceiling division `⌈a / b⌉` (for positive `b`), used to state the bound on
the number of expanding-window fit attempts. -/
def ceilD (a b : ℤ) : ℤ := (a + b - 1) / b

/-- Well-formedness of the tail of the expanding-window trace starting at round
index `i`: each recorded attempt `a` used the slice bound `nh + i * n12h`, was
run on the leading `a.w` samples of both tables, and returned `a.res`; every
attempt other than the last was rejected while the window was still strictly
inside the dataset (so the next round grew it by exactly one 12-hour block of
samples). -/
def GoodTail (c : CalCtx) : ℤ → List Attempt → Prop
  | _, [] => True
  | i, a :: rest =>
    a.w = winAt c i ∧ a.accelW = pySlice c.accel a.w ∧ a.timeW = pySlice c.time a.w ∧
    fitAt c a.w = .ok a.res ∧
    (rest = [] ∨
      (a.res.finished = false ∧ a.w < (c.accel.length : ℤ) ∧ GoodTail c (i + 1) rest))

/-- A concrete instantiation of the norm parameter, used only to build witness
runs: the L1 norm. -/
def normL1 (v : Vec3) : ℚ := |v.x| + |v.y| + |v.z|

/-- Concrete Window Statistics Provider for witness runs: zero rolling standard
deviation, rolling mean equal to the sample itself (a perfectly still
recording). -/
def stillProviders : Providers :=
  ⟨fun a _ _ => a.map (fun _ => ⟨0, 0, 0⟩), fun a _ _ => a⟩

/-- Concrete Window Statistics Provider for witness runs: rolling standard
deviation 1 g everywhere (no sample is ever classified as still). -/
def busyProviders : Providers :=
  ⟨fun a _ _ => a.map (fun _ => ⟨1, 1, 1⟩), fun a _ _ => a⟩

/-- Witness input: two stillness samples at radius 3/2 on the main diagonal,
one sample per hour of recording (`nh = 1`, `n12h = 12` with
`min_hours = 1`). -/
def inAccept : InputData :=
  ⟨[⟨3/2, 3/2, 3/2⟩, ⟨-(3/2), -(3/2), -(3/2)⟩], [0, 1], 1/3600, []⟩

/-- Witness input: two all-zero samples (still, but with no sphere coverage, so
every fit is rejected). -/
def inFlat : InputData := ⟨[⟨0, 0, 0⟩, ⟨0, 0, 0⟩], [0, 1], 1/3600, []⟩

/-- Counterexample input for the termination bound: with
`sampling_rate = 1/43300` and `min_hours = 13`, `nh = 1` but `n12h = 0`, so the
window `nh + i_h * n12h` never grows. -/
def inNoGrow : InputData := ⟨[⟨0, 0, 0⟩, ⟨0, 0, 0⟩], [0, 1], 1/43300, []⟩

/-- Failing input for the no-stillness boundary: exactly `min_hours` of data
(one sample at `min_hours = 1`, `sampling_rate = 1/3600`), fed to the
no-stillness provider. -/
def inNoStill : InputData := ⟨[⟨0, 0, 0⟩], [0], 1/3600, []⟩

/-- Failing input for entry-point validation: a zero sampling rate, and a time
table whose row count (0) differs from the acceleration table row count (1). -/
def inZeroRate : InputData := ⟨[⟨0, 0, 0⟩], [], 0, []⟩

/-- The accepted fit of the diagonal witness run: scale 2/9 per axis, zero
offset, `cal_err_start = 7/2`, `cal_err_end = 0`, after 3 regression
rounds. -/
def fitResDiag : FitResult := ⟨true, ⟨0, 0, 0⟩, ⟨2/9, 2/9, 2/9⟩, 7/2, 0, 3⟩

/-- A rejected fit: the early sphere-coverage exit. -/
def fitResRej : FitResult := ⟨false, ⟨0, 0, 0⟩, ⟨1, 1, 1⟩, 0, 0, 0⟩

/-- The context of the accepted witness run. -/
def ctxAccept : CalCtx :=
  mkCtx stillProviders normL1 inAccept (3/10) 1 (13/1000) 10 (1/10000000000)

/-- The trace of the accepted witness run: round 0 on the leading sample
(rejected), round 1 on the whole recording (accepted). -/
def trAccept : List Attempt :=
  [⟨1, [⟨3/2, 3/2, 3/2⟩], [0], fitResRej⟩,
   ⟨13, [⟨3/2, 3/2, 3/2⟩, ⟨-(3/2), -(3/2), -(3/2)⟩], [0, 1], fitResDiag⟩]

/-- The output of the accepted witness run. -/
def outAccept : OutputData :=
  ⟨[⟨1/3, 1/3, 1/3⟩, ⟨-(1/3), -(1/3), -(1/3)⟩], .vec ⟨2/9, 2/9, 2/9⟩,
    .vec ⟨0, 0, 0⟩, 1/3600, 7/2, 0, [0, 1], []⟩

/-- Rewriting `|q|` into a decidable conditional, so concrete absolute values
evaluate. -/
theorem absIte (q : ℚ) : |q| = if q < 0 then -q else q := by
  split
  · exact abs_of_neg (by assumption)
  · exact abs_of_nonneg (by linarith [not_lt.mp (by assumption : ¬ q < 0)])

theorem intToNatTwo : (2 : ℤ).toNat = 2 := rfl

theorem intToNatThirteen : (13 : ℤ).toNat = 13 := rfl

/-- One unfolding step of the regression loop, with the round body already
evaluated. -/
theorem runFit_step (norm3 : Vec3 → ℚ) (data : List Vec3) (tol : ℚ) (fuel i : ℕ)
    (st st2 : FitState) (h : fitRound norm3 data st = st2) :
    runFit norm3 data tol (fuel + 1) i st =
      if convergenceBreak st2.residual i tol then st2
      else runFit norm3 data tol fuel (i + 1) st2 := by
  simp only [runFit, h]

/-- One unfolding step of the expanding-window loop when the fitter returns
normally. -/
theorem calLoopAux_step_ok (c : CalCtx) (fuel : ℕ) (i : ℤ) (tr : List Attempt)
    (r : FitResult) (h : fitAt c (winAt c i) = .ok r) :
    calLoopAux c (fuel + 1) i tr =
      (if r.finished then
        CalOutcome.ok
          (tr ++ [⟨winAt c i, pySlice c.accel (winAt c i), pySlice c.time (winAt c i), r⟩])
          [] (acceptedOut c r)
      else if (c.accel.length : ℤ) ≤ winAt c i then
        CalOutcome.ok
          (tr ++ [⟨winAt c i, pySlice c.accel (winAt c i), pySlice c.time (winAt c i), r⟩])
          [.calibrationInvalid (c.min_hours + (i - 1) * 12) (c.min_hours + i * 12)]
          (invalidOut c)
      else calLoopAux c fuel (i + 1)
        (tr ++ [⟨winAt c i, pySlice c.accel (winAt c i), pySlice c.time (winAt c i), r⟩])) := by
  simp only [calLoopAux, h]

/-- One unfolding step of the expanding-window loop when the fitter raises. -/
theorem calLoopAux_step_err (c : CalCtx) (fuel : ℕ) (i : ℤ) (tr : List Attempt)
    (e : PyError) (h : fitAt c (winAt c i) = .error e) :
    calLoopAux c (fuel + 1) i tr = .pyError e := by
  simp only [calLoopAux, h]

/-- The regression loop runs at most `fuel` further rounds. -/
theorem runFit_iters (norm3 : Vec3 → ℚ) (data : List Vec3) (tol : ℚ) :
    ∀ (fuel i : ℕ) (st : FitState),
      (runFit norm3 data tol fuel i st).iters ≤ st.iters + fuel := by
  intro fuel
  induction fuel with
  | zero => intro i st; simp [runFit]
  | succ fuel ih =>
    intro i st
    rw [runFit_step norm3 data tol fuel i st (fitRound norm3 data st) rfl]
    split
    · simp [fitRound]
    · calc (runFit norm3 data tol fuel (i + 1) (fitRound norm3 data st)).iters
          ≤ (fitRound norm3 data st).iters + fuel := ih (i + 1) _
        _ ≤ st.iters + (fuel + 1) := by simp [fitRound]; omega

/-- Pushing `getLast?` through a cons when the tail has a last element. -/
theorem getLastCons {α : Type} :
    ∀ (l : List α) (a b : α), l.getLast? = some b → (a :: l).getLast? = some b := by
  intro l
  induction l with
  | nil => intro a b h; simp [List.getLast?] at h
  | cons x xs ih =>
    intro a b h
    rw [List.getLast?_cons_cons]
    exact h

/-- The shape of any normal return of the expanding-window loop: the returned
trace extends the accumulator by a `GoodTail`, and the warnings and output are
those of either the accepted exit or the giving-up exit, decided by the last
attempt. -/
theorem calLoopAux_ok_spec (c : CalCtx) (fuel : ℕ) :
    ∀ (i : ℤ) (tr0 tr : List Attempt) (ws : List Advisory) (out : OutputData),
      calLoopAux c fuel i tr0 = .ok tr ws out →
      ∃ tl last, tr = tr0 ++ tl ∧ tl.getLast? = some last ∧ GoodTail c i tl ∧
        ((last.res.finished = true ∧ ws = [] ∧ out = acceptedOut c last.res) ∨
         (last.res.finished = false ∧ (c.accel.length : ℤ) ≤ last.w ∧ out = invalidOut c ∧
          ∃ j : ℤ, last.w = winAt c j ∧
            ws = [.calibrationInvalid (c.min_hours + (j - 1) * 12)
              (c.min_hours + j * 12)])) := by
  induction fuel with
  | zero => intro i tr0 tr ws out h; simp [calLoopAux] at h
  | succ fuel ih =>
    intro i tr0 tr ws out h
    cases hf : fitAt c (winAt c i) with
    | error e =>
      rw [calLoopAux_step_err c fuel i tr0 e hf] at h
      exact absurd h (by simp)
    | ok r =>
      rw [calLoopAux_step_ok c fuel i tr0 r hf] at h
      by_cases hfin : r.finished = true
      · rw [if_pos hfin] at h
        rw [CalOutcome.ok.injEq] at h
        obtain ⟨htr, hws, hout⟩ := h
        refine ⟨[⟨winAt c i, pySlice c.accel (winAt c i), pySlice c.time (winAt c i), r⟩],
          ⟨winAt c i, pySlice c.accel (winAt c i), pySlice c.time (winAt c i), r⟩,
          htr.symm, by simp, ?_, Or.inl ⟨hfin, hws.symm, hout.symm⟩⟩
        exact ⟨rfl, rfl, rfl, hf, Or.inl rfl⟩
      · rw [if_neg hfin] at h
        have hfin2 : r.finished = false := by revert hfin; cases r.finished <;> simp
        by_cases hcov : (c.accel.length : ℤ) ≤ winAt c i
        · rw [if_pos hcov] at h
          rw [CalOutcome.ok.injEq] at h
          obtain ⟨htr, hws, hout⟩ := h
          refine ⟨[⟨winAt c i, pySlice c.accel (winAt c i), pySlice c.time (winAt c i), r⟩],
            ⟨winAt c i, pySlice c.accel (winAt c i), pySlice c.time (winAt c i), r⟩,
            htr.symm, by simp, ?_, Or.inr ⟨hfin2, hcov, hout.symm, i, rfl, hws.symm⟩⟩
          exact ⟨rfl, rfl, rfl, hf, Or.inl rfl⟩
        · rw [if_neg hcov] at h
          obtain ⟨tl2, last, htr, hlast, hgood, hdisj⟩ := ih (i + 1) _ tr ws out h
          refine ⟨⟨winAt c i, pySlice c.accel (winAt c i), pySlice c.time (winAt c i), r⟩ :: tl2,
            last, ?_, ?_, ?_, hdisj⟩
          · rw [htr, List.append_assoc, List.singleton_append]
          · cases htl2 : tl2 with
            | nil => rw [htl2] at hlast; simp [List.getLast?] at hlast
            | cons x xs =>
              rw [htl2] at hlast
              exact getLastCons (x :: xs) _ last hlast
          · exact ⟨rfl, rfl, rfl, hf,
              Or.inr ⟨hfin2, not_le.mp hcov, hgood⟩⟩

/-- `ceilD` really is the ceiling: stepping the numerator down by the divisor
decrements it. -/
theorem ceilD_sub (g b : ℤ) (hb : b ≠ 0) : ceilD (g - b) b = ceilD g b - 1 := by
  have h1 : g + b - 1 = (g - 1) + 1 * b := by ring
  have h2 : g - b + b - 1 = g - 1 := by ring
  rw [ceilD, ceilD, h1, h2, Int.add_mul_ediv_right _ _ hb]
  omega

/-- `ceilD g b` is nonnegative as soon as `g > -b` (for `b ≥ 1`). -/
theorem ceilD_nonneg (g b : ℤ) (hb : 1 ≤ b) (hg : -b < g) : 0 ≤ ceilD g b := by
  exact Int.ediv_nonneg (a := g + b - 1) (b := b) (by omega) (by omega)

theorem winAt_succ (c : CalCtx) (i : ℤ) : winAt c (i + 1) = winAt c i + c.n12h := by
  simp [winAt]; ring

/-- Counting the attempts of a well-formed trace tail: at most
`1 + ⌈(N - winAt i) / n12h⌉` when each non-final attempt grows the window by
`n12h ≥ 1`. -/
theorem GoodTail_length (c : CalCtx) (hb : 1 ≤ c.n12h) :
    ∀ (tl : List Attempt) (i : ℤ), GoodTail c i tl →
      -c.n12h < (c.accel.length : ℤ) - winAt c i →
      (tl.length : ℤ) ≤ 1 + ceilD ((c.accel.length : ℤ) - winAt c i) c.n12h := by
  intro tl
  induction tl with
  | nil =>
    intro i _ hlow
    have := ceilD_nonneg ((c.accel.length : ℤ) - winAt c i) c.n12h hb hlow
    simp only [List.length_nil, Int.natCast_zero]
    omega
  | cons a rest ih =>
    intro i hg hlow
    obtain ⟨hw, _, _, _, hdisj⟩ := hg
    cases hdisj with
    | inl hrest =>
      subst hrest
      have := ceilD_nonneg ((c.accel.length : ℤ) - winAt c i) c.n12h hb hlow
      simp only [List.length_cons, List.length_nil]
      omega
    | inr hh =>
      obtain ⟨hfin, hlt, hgood⟩ := hh
      have hpos : 0 < (c.accel.length : ℤ) - winAt c i := by omega
      have hlow2 : -c.n12h < (c.accel.length : ℤ) - winAt c (i + 1) := by
        rw [winAt_succ]; omega
      have hrec := ih (i + 1) hgood hlow2
      have hstep : ceilD ((c.accel.length : ℤ) - winAt c (i + 1)) c.n12h =
          ceilD ((c.accel.length : ℤ) - winAt c i) c.n12h - 1 := by
        rw [winAt_succ]
        have : (c.accel.length : ℤ) - (winAt c i + c.n12h) =
            ((c.accel.length : ℤ) - winAt c i) - c.n12h := by ring
        rw [this, ceilD_sub _ _ (by omega)]
      rw [hstep] at hrec
      simp only [List.length_cons]
      push_cast
      omega

/-- With `n12h ≥ 1` and enough fuel, the expanding-window loop cannot run out
of fuel: every round either returns or strictly grows the window. -/
theorem calLoopAux_no_fuelOut (c : CalCtx) (hb : 1 ≤ c.n12h) (fuel : ℕ) :
    ∀ (i : ℤ) (tr0 : List Attempt), 1 ≤ fuel →
      (c.accel.length : ℤ) ≤ winAt c i + ((fuel : ℤ) - 1) * c.n12h →
      ∀ tr2, calLoopAux c fuel i tr0 ≠ .fuelOut tr2 := by
  induction fuel with
  | zero => intro i tr0 h1; omega
  | succ fuel ih =>
    intro i tr0 _ hle tr2
    cases hf : fitAt c (winAt c i) with
    | error e => rw [calLoopAux_step_err c fuel i tr0 e hf]; simp
    | ok r =>
      rw [calLoopAux_step_ok c fuel i tr0 r hf]
      split
      · simp
      · split
        · simp
        · rename_i hcov
          have hlt : winAt c i < (c.accel.length : ℤ) := not_le.mp hcov
          have hfuel : 1 ≤ fuel := by
            by_contra hz
            have : fuel = 0 := by omega
            subst this
            push_cast at hle
            omega
          apply ih (i + 1) _ hfuel
          rw [winAt_succ]
          have hexp : ((fuel : ℤ) + 1 - 1) * c.n12h =
              c.n12h + ((fuel : ℤ) - 1) * c.n12h := by ring
          push_cast at hle
          rw [hexp] at hle
          omega

/-- `calRun` with fewer samples than `nh`: the data-insufficiency
short-circuit. -/
theorem calRun_insufficient (c : CalCtx) (h : (c.accel.length : ℤ) < c.nh) :
    calRun c = .ok [] [.insufficientData]
      ⟨c.accel, .int 0, .int 0, c.rate, 0, 0, c.time, c.aux⟩ := by
  simp [calRun, h]

/-- The normal-return shape of `calRun` when the loop is entered. -/
theorem calRun_ok_spec (c : CalCtx) (hnh : c.nh ≤ (c.accel.length : ℤ))
    (tr : List Attempt) (ws : List Advisory) (out : OutputData)
    (h : calRun c = .ok tr ws out) :
    ∃ last, tr.getLast? = some last ∧ GoodTail c 0 tr ∧
      ((last.res.finished = true ∧ ws = [] ∧ out = acceptedOut c last.res) ∨
       (last.res.finished = false ∧ (c.accel.length : ℤ) ≤ last.w ∧ out = invalidOut c ∧
        ∃ j : ℤ, last.w = winAt c j ∧
          ws = [.calibrationInvalid (c.min_hours + (j - 1) * 12)
            (c.min_hours + j * 12)])) := by
  rw [calRun, if_neg (not_lt.mpr hnh)] at h
  obtain ⟨tl, last, htr, hlast, hgood, hdisj⟩ :=
    calLoopAux_ok_spec c _ 0 [] tr ws out h
  rw [List.nil_append] at htr
  subst htr
  exact ⟨last, hlast, hgood, hdisj⟩

/-- `calRun` never exhausts its fuel when `n12h ≥ 1`. -/
theorem calRun_no_fuelOut (c : CalCtx) (hb : 1 ≤ c.n12h) :
    ∀ tr2, calRun c ≠ .fuelOut tr2 := by
  intro tr2
  rw [calRun]
  split
  · simp
  · rename_i hge
    have hnh : c.nh ≤ (c.accel.length : ℤ) := not_lt.mp hge
    apply calLoopAux_no_fuelOut c hb _ 0 [] (by omega)
    have habs : ((c.nh.natAbs : ℤ)) = |c.nh| := Int.natCast_natAbs c.nh
    have habs2 : ((c.n12h.natAbs : ℤ)) = |c.n12h| := Int.natCast_natAbs c.n12h
    have h1 : -c.nh ≤ |c.nh| := neg_le_abs c.nh
    have h2 : (0:ℤ) ≤ |c.n12h| := abs_nonneg c.n12h
    have hF : ((c.accel.length + c.nh.natAbs + c.n12h.natAbs + 2 : ℕ) : ℤ) =
        (c.accel.length : ℤ) + |c.nh| + |c.n12h| + 2 := by
      push_cast
      ring
    rw [winAt, hF]
    have hfm : 1 ≤ (c.accel.length : ℤ) + |c.nh| + |c.n12h| + 2 - 1 := by omega
    have : ((c.accel.length : ℤ) + |c.nh| + |c.n12h| + 2 - 1) * 1 ≤
        ((c.accel.length : ℤ) + |c.nh| + |c.n12h| + 2 - 1) * c.n12h := by
      apply mul_le_mul_of_nonneg_left hb (by omega)
    omega

/-- Round 0 of the regression loop on the diagonal two-sample working set:
intercepts 0, slopes 2/9. -/
theorem incRoundA : roundIncrements normL1 [⟨3/2, 3/2, 3/2⟩, ⟨-(3/2), -(3/2), -(3/2)⟩]
    ⟨⟨0,0,0⟩, ⟨1,1,1⟩, [100,100], [none], 0⟩ = (⟨0,0,0⟩, ⟨2/9,2/9,2/9⟩) := by
  norm_num [roundIncrements, apply_calibration, linRegFit, normL1,
    List.zipWith, absIte]

theorem stepRoundA : fitRound normL1 [⟨3/2, 3/2, 3/2⟩, ⟨-(3/2), -(3/2), -(3/2)⟩]
    ⟨⟨0,0,0⟩, ⟨1,1,1⟩, [100,100], [none], 0⟩ =
    ⟨⟨0,0,0⟩, ⟨2/9,2/9,2/9⟩, [100,100], [none, some 0], 1⟩ := by
  norm_num [fitRound, incRoundA, apply_calibration, normL1,
    Vec3.mul, Vec3.add, Vec3.div, List.zipWith, absIte]

/-- Round 1: the working set is already on the (L1) unit sphere, so the
regression returns identity increments. -/
theorem incRoundB : roundIncrements normL1 [⟨3/2, 3/2, 3/2⟩, ⟨-(3/2), -(3/2), -(3/2)⟩]
    ⟨⟨0,0,0⟩, ⟨2/9,2/9,2/9⟩, [100,100], [none, some 0], 1⟩ = (⟨0,0,0⟩, ⟨1,1,1⟩) := by
  norm_num [roundIncrements, apply_calibration, linRegFit, normL1,
    List.zipWith, absIte]

theorem stepRoundB : fitRound normL1 [⟨3/2, 3/2, 3/2⟩, ⟨-(3/2), -(3/2), -(3/2)⟩]
    ⟨⟨0,0,0⟩, ⟨2/9,2/9,2/9⟩, [100,100], [none, some 0], 1⟩ =
    ⟨⟨0,0,0⟩, ⟨2/9,2/9,2/9⟩, [100,100], [none, some 0, some 0], 2⟩ := by
  norm_num [fitRound, incRoundB, apply_calibration, normL1,
    Vec3.mul, Vec3.add, Vec3.div, List.zipWith, absIte]

theorem incRoundC : roundIncrements normL1 [⟨3/2, 3/2, 3/2⟩, ⟨-(3/2), -(3/2), -(3/2)⟩]
    ⟨⟨0,0,0⟩, ⟨2/9,2/9,2/9⟩, [100,100], [none, some 0, some 0], 2⟩ = (⟨0,0,0⟩, ⟨1,1,1⟩) := by
  norm_num [roundIncrements, apply_calibration, linRegFit, normL1,
    List.zipWith, absIte]

theorem stepRoundC : fitRound normL1 [⟨3/2, 3/2, 3/2⟩, ⟨-(3/2), -(3/2), -(3/2)⟩]
    ⟨⟨0,0,0⟩, ⟨2/9,2/9,2/9⟩, [100,100], [none, some 0, some 0], 2⟩ =
    ⟨⟨0,0,0⟩, ⟨2/9,2/9,2/9⟩, [100,100], [none, some 0, some 0, some 0], 3⟩ := by
  norm_num [fitRound, incRoundC, apply_calibration, normL1,
    Vec3.mul, Vec3.add, Vec3.div, List.zipWith, absIte]

/-- The full regression loop on the two-sample working set: the residual is 0
from round 0 on, yet the loop runs a third round, because the break test at
round `i` compares `residual[i]` with `residual[i-1]`, entries that lag the
just-computed residual (at position `i+1`) by one round. -/
theorem runDiag : runFit normL1 [⟨3/2, 3/2, 3/2⟩, ⟨-(3/2), -(3/2), -(3/2)⟩]
    (1/10000000000) 10 0 ⟨⟨0,0,0⟩, ⟨1,1,1⟩, [100,100], [none], 0⟩ =
    ⟨⟨0,0,0⟩, ⟨2/9,2/9,2/9⟩, [100,100], [none, some 0, some 0, some 0], 3⟩ := by
  rw [show (10:ℕ) = 9 + 1 from rfl, runFit_step _ _ _ _ _ _ _ stepRoundA]
  norm_num [convergenceBreak, pyGet]
  rw [show (9:ℕ) = 8 + 1 from rfl, runFit_step _ _ _ _ _ _ _ stepRoundB]
  norm_num [convergenceBreak, pyGet]
  rw [show (8:ℕ) = 7 + 1 from rfl, runFit_step _ _ _ _ _ _ _ stepRoundC]
  norm_num [convergenceBreak, pyGet, intToNatTwo]

/-- The fitter accepts the two-sample diagonal window:
`cal_err_start = 7/2`, `cal_err_end = 0`. -/
theorem fitAccept : closest_point_fit stillProviders normL1
    [⟨3/2, 3/2, 3/2⟩, ⟨-(3/2), -(3/2), -(3/2)⟩] [0, 1] (13/1000) (3/10) 10 (1/10000000000) =
    .ok ⟨true, ⟨0,0,0⟩, ⟨2/9,2/9,2/9⟩, 7/2, 0, 3⟩ := by
  norm_num [closest_point_fit, noMotionSet, stillProviders, noMotionRow, List.zip,
    List.zipWith, List.filterMap_cons, absIte, sphereCount, axisCheck, List.min?,
    List.max?, fitFinalState, initFitState, runDiag, apply_calibration, normL1,
    calErr, round5]

/-- The fitter rejects a single-sample window (no sphere coverage), without
iterating. -/
theorem fitRejOne : closest_point_fit stillProviders normL1 [⟨3/2, 3/2, 3/2⟩] [0]
    (13/1000) (3/10) 10 (1/10000000000) =
    .ok ⟨false, ⟨0,0,0⟩, ⟨1,1,1⟩, 0, 0, 0⟩ := by
  norm_num [closest_point_fit, noMotionSet, stillProviders, noMotionRow, List.zip,
    List.zipWith, List.filterMap_cons, absIte, sphereCount, axisCheck, List.min?,
    List.max?]

/-- The fitter rejects a single all-zero sample (still, but min = max = 0 fails
the sphere check on every axis). -/
theorem fitRejZero : closest_point_fit stillProviders normL1 [⟨0, 0, 0⟩] [0]
    (13/1000) (3/10) 10 (1/10000000000) =
    .ok ⟨false, ⟨0,0,0⟩, ⟨1,1,1⟩, 0, 0, 0⟩ := by
  norm_num [closest_point_fit, noMotionSet, stillProviders, noMotionRow, List.zip,
    List.zipWith, List.filterMap_cons, absIte, sphereCount, axisCheck, List.min?,
    List.max?]

/-- The fitter rejects two all-zero samples. -/
theorem fitRejZeros : closest_point_fit stillProviders normL1 [⟨0, 0, 0⟩, ⟨0, 0, 0⟩]
    [0, 1] (13/1000) (3/10) 10 (1/10000000000) =
    .ok ⟨false, ⟨0,0,0⟩, ⟨1,1,1⟩, 0, 0, 0⟩ := by
  norm_num [closest_point_fit, noMotionSet, stillProviders, noMotionRow, List.zip,
    List.zipWith, List.filterMap_cons, absIte, sphereCount, axisCheck, List.min?,
    List.max?]

/-- On an empty window the working set is empty, the polars `min`/`max` are
`None`, and the comparison with the sphere criterion raises `TypeError`. -/
theorem fitErrEmpty : closest_point_fit stillProviders normL1 [] []
    (13/1000) (3/10) 10 (1/10000000000) = .error .typeError := by
  norm_num [closest_point_fit, noMotionSet, stillProviders, List.zip, List.zipWith,
    sphereCount, axisCheck, List.min?, List.max?]

/-- With no still samples (rolling SD 1 g everywhere) the working set is empty
and the fitter raises `TypeError` instead of returning not-accepted. -/
theorem fitErrNoStill : closest_point_fit busyProviders normL1 [⟨0, 0, 0⟩] [0]
    (13/1000) (3/10) 10 (1/10000000000) = .error .typeError := by
  norm_num [closest_point_fit, noMotionSet, busyProviders, noMotionRow, List.zip,
    List.zipWith, List.filterMap_cons, absIte, sphereCount, axisCheck, List.min?,
    List.max?]

/-- The full calibration run on `inAccept` (`min_hours = 1`): round 0 fits the
leading sample and is rejected, round 1 fits the whole recording and is
accepted; the transform is applied to the entire table. -/
theorem scenAccept : start_ggir_calibration stillProviders normL1 inAccept
    (3/10) 1 (13/1000) 10 (1/10000000000) =
    .ok [⟨1, [⟨3/2, 3/2, 3/2⟩], [0], ⟨false, ⟨0,0,0⟩, ⟨1,1,1⟩, 0, 0, 0⟩⟩,
         ⟨13, [⟨3/2, 3/2, 3/2⟩, ⟨-(3/2), -(3/2), -(3/2)⟩], [0, 1],
            ⟨true, ⟨0,0,0⟩, ⟨2/9,2/9,2/9⟩, 7/2, 0, 3⟩⟩] []
      ⟨[⟨1/3, 1/3, 1/3⟩, ⟨-(1/3), -(1/3), -(1/3)⟩], .vec ⟨2/9,2/9,2/9⟩, .vec ⟨0,0,0⟩,
        1/3600, 7/2, 0, [0, 1], []⟩ := by
  norm_num [start_ggir_calibration, calRun, mkCtx, inAccept, pyInt, calLoopAux,
    fitAt, winAt, pySlice, Int.toNat_ofNat, List.take_succ_cons, List.take_nil,
    fitRejOne, fitAccept, acceptedOut, invalidOut, apply_calibration]
  norm_num [intToNatThirteen, fitAccept, acceptedOut, apply_calibration]

/-- The full calibration run on `inFlat`: both windows are rejected, the second
already covers the whole dataset, so the run gives up with the invalid result
and the hour-range warning. -/
theorem scenFlat : start_ggir_calibration stillProviders normL1 inFlat
    (3/10) 1 (13/1000) 10 (1/10000000000) =
    .ok [⟨1, [⟨0, 0, 0⟩], [0], ⟨false, ⟨0,0,0⟩, ⟨1,1,1⟩, 0, 0, 0⟩⟩,
         ⟨13, [⟨0, 0, 0⟩, ⟨0, 0, 0⟩], [0, 1], ⟨false, ⟨0,0,0⟩, ⟨1,1,1⟩, 0, 0, 0⟩⟩]
      [.calibrationInvalid 1 13]
      ⟨[⟨0, 0, 0⟩, ⟨0, 0, 0⟩], .int 0, .int 0, 1/3600, 0, 0, [0, 1], []⟩ := by
  norm_num [start_ggir_calibration, calRun, mkCtx, inFlat, pyInt, calLoopAux,
    fitAt, winAt, pySlice, Int.toNat_ofNat, List.take_succ_cons, List.take_nil,
    fitRejZero, fitRejZeros, acceptedOut, invalidOut, apply_calibration]
  norm_num [intToNatThirteen, fitRejZeros, invalidOut]

/-- The full calibration run on `inNoGrow` (`n12h = 0`): every round re-fits
the same one-sample window, no round ever returns, and the loop fuel
(5 here) is exhausted with one recorded attempt per unit of fuel. -/
theorem scenNoGrow : start_ggir_calibration stillProviders normL1 inNoGrow
    (3/10) 13 (13/1000) 10 (1/10000000000) =
    .fuelOut [⟨1, [⟨0, 0, 0⟩], [0], ⟨false, ⟨0,0,0⟩, ⟨1,1,1⟩, 0, 0, 0⟩⟩,
      ⟨1, [⟨0, 0, 0⟩], [0], ⟨false, ⟨0,0,0⟩, ⟨1,1,1⟩, 0, 0, 0⟩⟩,
      ⟨1, [⟨0, 0, 0⟩], [0], ⟨false, ⟨0,0,0⟩, ⟨1,1,1⟩, 0, 0, 0⟩⟩,
      ⟨1, [⟨0, 0, 0⟩], [0], ⟨false, ⟨0,0,0⟩, ⟨1,1,1⟩, 0, 0, 0⟩⟩,
      ⟨1, [⟨0, 0, 0⟩], [0], ⟨false, ⟨0,0,0⟩, ⟨1,1,1⟩, 0, 0, 0⟩⟩] := by
  norm_num [start_ggir_calibration, calRun, mkCtx, inNoGrow, pyInt, calLoopAux,
    fitAt, winAt, pySlice, Int.toNat_ofNat, List.take_succ_cons, List.take_nil,
    fitRejZero]

/-- The full calibration run on `inNoStill` with the no-stillness provider:
exactly `min_hours` of data, no still samples, and the run dies with the
`TypeError` raised inside the fitter. -/
theorem scenNoStill : start_ggir_calibration busyProviders normL1 inNoStill
    (3/10) 1 (13/1000) 10 (1/10000000000) = .pyError .typeError := by
  norm_num [start_ggir_calibration, calRun, mkCtx, inNoStill, pyInt, calLoopAux,
    fitAt, winAt, pySlice, Int.toNat_ofNat, List.take_succ_cons, List.take_nil,
    fitErrNoStill]

/-- The full calibration run on `inZeroRate` (zero sampling rate, mismatched
row counts): no validation fires; `nh = n12h = 0`, the first window is empty,
and the run dies with the fitter-internal `TypeError`. -/
theorem scenZeroRate : start_ggir_calibration stillProviders normL1 inZeroRate
    (3/10) 72 (13/1000) 10 (1/10000000000) = .pyError .typeError := by
  norm_num [start_ggir_calibration, calRun, mkCtx, inZeroRate, pyInt, calLoopAux,
    fitAt, winAt, pySlice, Int.toNat_ofNat, List.take_nil, fitErrEmpty]

/-- C6: in every round of the refinement loop, the increments are composed as
`scale ← scale_increment * scale` (elementwise) and then
`offset ← offset_increment + offset / scale`, where the division is by the
just-updated scale (the round's output scale), not the pre-update scale. -/
theorem fit_increment_composition (norm3 : Vec3 → ℚ) (data : List Vec3)
    (st : FitState) :
    (fitRound norm3 data st).scale =
      Vec3.mul (roundIncrements norm3 data st).2 st.scale ∧
    (fitRound norm3 data st).offset =
      Vec3.add (roundIncrements norm3 data st).1
        (Vec3.div st.offset (fitRound norm3 data st).scale) := by
  constructor <;> rfl

/-- C1: a fit is accepted iff the end calibration error is strictly below both
the start error and 0.01; in both cases the returned record carries the
accumulated offset and scale of the final loop state together with both
errors. -/
theorem fit_acceptance_rule (P : Providers) (norm3 : Vec3 → ℚ)
    (accel_data : List Vec3) (time_data : List ℚ) (sd_crit sphere_crit : ℚ)
    (max_iter : ℕ) (tol : ℚ) (r : FitResult)
    (h : closest_point_fit P norm3 accel_data time_data sd_crit sphere_crit
      max_iter tol = .ok r) :
    (r.finished = true ↔ (r.calErrEnd < r.calErrStart ∧ r.calErrEnd < 1/100)) ∧
    (sphereCount (noMotionSet P accel_data time_data sd_crit) sphere_crit = .ok 3 →
      r.offset = (fitFinalState norm3 (noMotionSet P accel_data time_data sd_crit)
        max_iter tol).offset ∧
      r.scale = (fitFinalState norm3 (noMotionSet P accel_data time_data sd_crit)
        max_iter tol).scale ∧
      r.calErrStart = calErr norm3 (noMotionSet P accel_data time_data sd_crit) ∧
      r.calErrEnd = calErr norm3 (apply_calibration
        (noMotionSet P accel_data time_data sd_crit)
        (fitFinalState norm3 (noMotionSet P accel_data time_data sd_crit)
          max_iter tol).scale
        (fitFinalState norm3 (noMotionSet P accel_data time_data sd_crit)
          max_iter tol).offset)) := by
  simp only [closest_point_fit] at h
  cases hsc : sphereCount (noMotionSet P accel_data time_data sd_crit) sphere_crit with
  | error e => simp only [hsc] at h; exact absurd h (by simp)
  | ok c =>
    simp only [hsc] at h
    by_cases hc : c = 3
    · subst hc
      rw [if_neg (by simp)] at h
      by_cases hacc : (calErr norm3 (apply_calibration
          (noMotionSet P accel_data time_data sd_crit)
          (fitFinalState norm3 (noMotionSet P accel_data time_data sd_crit)
            max_iter tol).scale
          (fitFinalState norm3 (noMotionSet P accel_data time_data sd_crit)
            max_iter tol).offset) <
          calErr norm3 (noMotionSet P accel_data time_data sd_crit) ∧
        calErr norm3 (apply_calibration
          (noMotionSet P accel_data time_data sd_crit)
          (fitFinalState norm3 (noMotionSet P accel_data time_data sd_crit)
            max_iter tol).scale
          (fitFinalState norm3 (noMotionSet P accel_data time_data sd_crit)
            max_iter tol).offset) < 1/100)
      · rw [if_pos hacc, Except.ok.injEq] at h
        subst h
        exact ⟨by simpa using hacc, fun _ => ⟨rfl, rfl, rfl, rfl⟩⟩
      · rw [if_neg hacc, Except.ok.injEq] at h
        subst h
        exact ⟨by simpa using hacc, fun _ => ⟨rfl, rfl, rfl, rfl⟩⟩
    · rw [if_pos hc, Except.ok.injEq] at h
      subst h
      refine ⟨by simp, fun hsc3 => ?_⟩
      exact absurd (by simpa using hsc3) hc

/-- Witness for C1 at the accepted diagonal run. -/
theorem fit_acceptance_rule_witness :
    (fitResDiag.finished = true ↔
      (fitResDiag.calErrEnd < fitResDiag.calErrStart ∧ fitResDiag.calErrEnd < 1/100)) ∧
    (fitResDiag.offset = (fitFinalState normL1 (noMotionSet stillProviders
        [⟨3/2, 3/2, 3/2⟩, ⟨-(3/2), -(3/2), -(3/2)⟩] [0, 1] (13/1000)) 10
        (1/10000000000)).offset ∧
     fitResDiag.scale = (fitFinalState normL1 (noMotionSet stillProviders
        [⟨3/2, 3/2, 3/2⟩, ⟨-(3/2), -(3/2), -(3/2)⟩] [0, 1] (13/1000)) 10
        (1/10000000000)).scale ∧
     fitResDiag.calErrStart = calErr normL1 (noMotionSet stillProviders
        [⟨3/2, 3/2, 3/2⟩, ⟨-(3/2), -(3/2), -(3/2)⟩] [0, 1] (13/1000)) ∧
     fitResDiag.calErrEnd = calErr normL1 (apply_calibration
        (noMotionSet stillProviders
          [⟨3/2, 3/2, 3/2⟩, ⟨-(3/2), -(3/2), -(3/2)⟩] [0, 1] (13/1000))
        (fitFinalState normL1 (noMotionSet stillProviders
          [⟨3/2, 3/2, 3/2⟩, ⟨-(3/2), -(3/2), -(3/2)⟩] [0, 1] (13/1000)) 10
          (1/10000000000)).scale
        (fitFinalState normL1 (noMotionSet stillProviders
          [⟨3/2, 3/2, 3/2⟩, ⟨-(3/2), -(3/2), -(3/2)⟩] [0, 1] (13/1000)) 10
          (1/10000000000)).offset)) :=
  ⟨(fit_acceptance_rule stillProviders normL1
      [⟨3/2, 3/2, 3/2⟩, ⟨-(3/2), -(3/2), -(3/2)⟩] [0, 1] (13/1000) (3/10) 10
      (1/10000000000) fitResDiag fitAccept).1,
   (fit_acceptance_rule stillProviders normL1
      [⟨3/2, 3/2, 3/2⟩, ⟨-(3/2), -(3/2), -(3/2)⟩] [0, 1] (13/1000) (3/10) 10
      (1/10000000000) fitResDiag fitAccept).2
     (by norm_num [noMotionSet, stillProviders, noMotionRow, List.zip, List.zipWith,
        List.filterMap_cons, absIte, sphereCount, axisCheck, List.min?, List.max?])⟩

/-- C5 (amended): provided the stillness working set is nonempty — so that the
per-axis polars `min`/`max` exist and `GGIR_check` can be computed — if fewer
than all three axes pass the sphere-coverage check, the fitter returns
not-accepted immediately with zero offset, unit scale, zero errors and zero
regression rounds. -/
theorem fit_sphere_reject (P : Providers) (norm3 : Vec3 → ℚ)
    (accel_data : List Vec3) (time_data : List ℚ) (sd_crit sphere_crit : ℚ)
    (max_iter : ℕ) (tol : ℚ) (c : ℕ)
    (hc : sphereCount (noMotionSet P accel_data time_data sd_crit) sphere_crit = .ok c)
    (hne : c ≠ 3) :
    closest_point_fit P norm3 accel_data time_data sd_crit sphere_crit max_iter tol =
      .ok ⟨false, ⟨0, 0, 0⟩, ⟨1, 1, 1⟩, 0, 0, 0⟩ := by
  simp only [closest_point_fit, hc]
  rw [if_pos hne]

/-- Witness for C5 at a one-sample all-zero window. -/
theorem fit_sphere_reject_witness :
    closest_point_fit stillProviders normL1 [⟨0, 0, 0⟩] [0] (13/1000) (3/10) 10
      (1/10000000000) = .ok ⟨false, ⟨0, 0, 0⟩, ⟨1, 1, 1⟩, 0, 0, 0⟩ :=
  fit_sphere_reject stillProviders normL1 [⟨0, 0, 0⟩] [0] (13/1000) (3/10) 10
    (1/10000000000) 0
    (by norm_num [noMotionSet, stillProviders, noMotionRow, List.zip, List.zipWith,
      List.filterMap_cons, absIte, sphereCount, axisCheck, List.min?, List.max?])
    (by decide)

/-- Counterexample for C5 as stated: on a window whose stillness mask selects
zero rows (no axis can pass the sphere check), the fitter does not return the
not-accepted record — it raises `TypeError`, because the polars `min`/`max` of
the empty working set are `None`. -/
theorem fit_sphere_reject_cx :
    closest_point_fit busyProviders normL1 [⟨0, 0, 0⟩] [0] (13/1000) (3/10) 10
      (1/10000000000) = .error .typeError ∧
    closest_point_fit busyProviders normL1 [⟨0, 0, 0⟩] [0] (13/1000) (3/10) 10
      (1/10000000000) ≠ .ok ⟨false, ⟨0, 0, 0⟩, ⟨1, 1, 1⟩, 0, 0, 0⟩ :=
  ⟨fitErrNoStill, by rw [fitErrNoStill]; simp⟩

/-- C7 (amended): the loop stops unconditionally after `max_iter` rounds, but
the convergence test is lagged: at round `i ≥ 2` the break condition holds iff
the residuals of rounds `i-1` and `i-2` differ by less than `tol` (positions
`i` and `i-1` of the residual list, whose head is the `np.Inf` sentinel and
whose entry `j+1` is round `j`'s residual); at rounds 0 and 1 the test never
fires, because one of the inspected entries is the sentinel.  The
just-computed residual (position `i+1`) is not part of the test. -/
theorem fit_convergence_lagged :
    (∀ (norm3 : Vec3 → ℚ) (data : List Vec3) (tol : ℚ) (fuel i : ℕ)
        (st : FitState),
        (runFit norm3 data tol fuel i st).iters ≤ st.iters + fuel) ∧
    (∀ (rs : List ℚ) (i : ℕ) (tol : ℚ), 2 ≤ i → rs.length = i + 1 →
        (convergenceBreak ((none : Option ℚ) :: rs.map some) i tol = true ↔
          |rs.getD (i - 1) 0 - rs.getD (i - 2) 0| < tol)) ∧
    (∀ (rs : List ℚ) (i : ℕ) (tol : ℚ), i ≤ 1 → rs.length = i + 1 →
        convergenceBreak ((none : Option ℚ) :: rs.map some) i tol = false) := by
  refine ⟨runFit_iters, ?_, ?_⟩
  · intro rs i tol h2 hlen
    obtain ⟨j, rfl⟩ : ∃ j, i = j + 2 := ⟨i - 2, by omega⟩
    have hj1 : j + 1 < rs.length := by omega
    have hj0 : j < rs.length := by omega
    have hget1 : pyGet ((none : Option ℚ) :: rs.map some) ((j + 2 : ℕ) : ℤ) =
        some (some (rs.get ⟨j + 1, hj1⟩)) := by
      rw [pyGet, if_pos (by positivity)]
      rw [Int.toNat_ofNat]
      rw [List.get?_cons_succ, List.get?_map, List.get?_eq_get hj1]
      rfl
    have hget0 : pyGet ((none : Option ℚ) :: rs.map some) (((j + 2 : ℕ) : ℤ) - 1) =
        some (some (rs.get ⟨j, hj0⟩)) := by
      have : ((j + 2 : ℕ) : ℤ) - 1 = ((j + 1 : ℕ) : ℤ) := by push_cast; ring
      rw [this, pyGet, if_pos (by positivity)]
      rw [Int.toNat_ofNat]
      rw [List.get?_cons_succ, List.get?_map, List.get?_eq_get hj0]
      rfl
    rw [convergenceBreak, hget1, hget0]
    have hd1 : rs.getD (j + 2 - 1) 0 = rs.get ⟨j + 1, hj1⟩ := by
      rw [show j + 2 - 1 = j + 1 from rfl, List.getD, List.get?_eq_get hj1]
      rfl
    have hd0 : rs.getD (j + 2 - 2) 0 = rs.get ⟨j, hj0⟩ := by
      rw [show j + 2 - 2 = j from rfl, List.getD, List.get?_eq_get hj0]
      rfl
    rw [hd1, hd0]
    exact decide_eq_true_iff
  · intro rs i tol h1 hlen
    match i, h1 with
    | 0, _ =>
      rw [convergenceBreak]
      have : pyGet ((none : Option ℚ) :: rs.map some) ((0 : ℕ) : ℤ) = some none := by
        rw [pyGet, if_pos (by omega)]
        rfl
      rw [this]
    | 1, _ =>
      obtain ⟨r0, rs0, rfl⟩ : ∃ r0 rs0, rs = r0 :: rs0 := by
        cases rs with
        | nil => simp at hlen
        | cons a l => exact ⟨a, l, rfl⟩
      rw [convergenceBreak]
      have h0 : pyGet ((none : Option ℚ) :: (r0 :: rs0).map some) (((1 : ℕ) : ℤ) - 1) =
          some none := by
        rw [show ((1 : ℕ) : ℤ) - 1 = (0 : ℤ) by norm_num, pyGet, if_pos (by omega)]
        rfl
      have h1' : pyGet ((none : Option ℚ) :: (r0 :: rs0).map some) ((1 : ℕ) : ℤ) =
          some (some r0) := by
        rw [pyGet, if_pos (by omega)]
        rfl
      rw [h0, h1']

/-- Witness for C7 at concrete residual histories. -/
theorem fit_convergence_lagged_witness :
    ((runFit normL1 [] 1 5 0 ⟨⟨0, 0, 0⟩, ⟨1, 1, 1⟩, [], [none], 0⟩).iters ≤
      (⟨⟨0, 0, 0⟩, ⟨1, 1, 1⟩, [], [none], 0⟩ : FitState).iters + 5) ∧
    (convergenceBreak ((none : Option ℚ) :: [(5 : ℚ), 6, 6].map some) 2 1 = true ↔
      |[(5 : ℚ), 6, 6].getD (2 - 1) 0 - [(5 : ℚ), 6, 6].getD (2 - 2) 0| < 1) ∧
    convergenceBreak ((none : Option ℚ) :: [(7 : ℚ)].map some) 0 1 = false :=
  ⟨fit_convergence_lagged.1 normL1 [] 1 5 0 ⟨⟨0, 0, 0⟩, ⟨1, 1, 1⟩, [], [none], 0⟩,
   fit_convergence_lagged.2.1 [5, 6, 6] 2 1 (by decide) (by decide),
   fit_convergence_lagged.2.2 [7] 0 1 (by decide) (by decide)⟩

/-- Counterexample for C7 as stated: in the diagonal run the residual is 0 in
every round, so the change between the residuals of consecutive rounds 0 and 1
is 0 < tol already when round 1's residual has just been computed — yet the
loop performs a third round (`iters = 3`), because round 1's test still
involves the `np.Inf` sentinel. -/
theorem fit_convergence_lagged_cx :
    (runFit normL1 [⟨3/2, 3/2, 3/2⟩, ⟨-(3/2), -(3/2), -(3/2)⟩] (1/10000000000) 10 0
      ⟨⟨0, 0, 0⟩, ⟨1, 1, 1⟩, [100, 100], [none], 0⟩).residual =
        [none, some 0, some 0, some 0] ∧
    (runFit normL1 [⟨3/2, 3/2, 3/2⟩, ⟨-(3/2), -(3/2), -(3/2)⟩] (1/10000000000) 10 0
      ⟨⟨0, 0, 0⟩, ⟨1, 1, 1⟩, [100, 100], [none], 0⟩).iters = 3 ∧
    |(0 : ℚ) - 0| < 1/10000000000 :=
  ⟨by rw [runDiag], by rw [runDiag], by norm_num⟩

/-- C2: with at least `nh` samples, the orchestrator's rounds fit exactly the
leading `nh + i * n12h` samples of both tables (`GoodTail … 0`, which also
states that every rejected round with data remaining grows the window by
exactly one 12-hour block of samples and that no round before the last is
accepted), and the run stops at the first accepted round, using that round's
parameters. -/
theorem calibrate_window_expansion (P : Providers) (norm3 : Vec3 → ℚ)
    (input : InputData) (sphere_crit : ℚ) (min_hours : ℤ) (sd_crit : ℚ)
    (max_iter : ℕ) (tol : ℚ) (tr : List Attempt) (ws : List Advisory)
    (out : OutputData)
    (hnh : (mkCtx P norm3 input sphere_crit min_hours sd_crit max_iter tol).nh ≤
      (input.acceleration.length : ℤ))
    (h : start_ggir_calibration P norm3 input sphere_crit min_hours sd_crit
      max_iter tol = .ok tr ws out) :
    tr ≠ [] ∧
    GoodTail (mkCtx P norm3 input sphere_crit min_hours sd_crit max_iter tol) 0 tr ∧
    (∀ last, tr.getLast? = some last → last.res.finished = true →
      out = acceptedOut (mkCtx P norm3 input sphere_crit min_hours sd_crit
        max_iter tol) last.res ∧ ws = []) := by
  rw [start_ggir_calibration] at h
  obtain ⟨last, hlast, hgood, hdisj⟩ :=
    calRun_ok_spec (mkCtx P norm3 input sphere_crit min_hours sd_crit max_iter tol)
      hnh tr ws out h
  refine ⟨?_, hgood, ?_⟩
  · intro hnil
    rw [hnil] at hlast
    simp [List.getLast?] at hlast
  · intro last2 hlast2 hfin2
    have hsame : last2 = last := by
      rw [hlast] at hlast2
      exact (Option.some.injEq _ _).mp hlast2.symm
    subst hsame
    cases hdisj with
    | inl hok => exact ⟨hok.2.2, hok.2.1⟩
    | inr hbad => rw [hfin2] at hbad; exact absurd hbad.1 (by simp)

/-- Witness for C2 at the accepted two-round run. -/
theorem calibrate_window_expansion_witness :
    trAccept ≠ [] ∧ GoodTail ctxAccept 0 trAccept ∧
    (outAccept = acceptedOut ctxAccept fitResDiag ∧ ([] : List Advisory) = []) := by
  have h := calibrate_window_expansion stillProviders normL1 inAccept (3/10) 1
    (13/1000) 10 (1/10000000000) trAccept [] outAccept
    (by norm_num [mkCtx, inAccept, pyInt])
    (by rw [show (.ok trAccept [] outAccept : CalOutcome) =
      (.ok [⟨1, [⟨3/2, 3/2, 3/2⟩], [0], ⟨false, ⟨0,0,0⟩, ⟨1,1,1⟩, 0, 0, 0⟩⟩,
         ⟨13, [⟨3/2, 3/2, 3/2⟩, ⟨-(3/2), -(3/2), -(3/2)⟩], [0, 1],
            ⟨true, ⟨0,0,0⟩, ⟨2/9,2/9,2/9⟩, 7/2, 0, 3⟩⟩] []
      ⟨[⟨1/3, 1/3, 1/3⟩, ⟨-(1/3), -(1/3), -(1/3)⟩], .vec ⟨2/9,2/9,2/9⟩, .vec ⟨0,0,0⟩,
        1/3600, 7/2, 0, [0, 1], []⟩ : CalOutcome) from rfl]; exact scenAccept)
  exact ⟨h.1, h.2.1, h.2.2 ⟨13, [⟨3/2, 3/2, 3/2⟩, ⟨-(3/2), -(3/2), -(3/2)⟩], [0, 1],
    fitResDiag⟩ rfl rfl⟩

/-- C3: whenever the run ends with an accepted fit, the output table is the
per-axis affine transform of the entire original table (row count preserved,
each row transformed componentwise in X, Y, Z order), and the output carries
the original, untruncated time sequence. -/
theorem calibrate_full_apply (P : Providers) (norm3 : Vec3 → ℚ)
    (input : InputData) (sphere_crit : ℚ) (min_hours : ℤ) (sd_crit : ℚ)
    (max_iter : ℕ) (tol : ℚ) (tr : List Attempt) (ws : List Advisory)
    (out : OutputData)
    (h : start_ggir_calibration P norm3 input sphere_crit min_hours sd_crit
      max_iter tol = .ok tr ws out)
    (last : Attempt) (hlast : tr.getLast? = some last)
    (hfin : last.res.finished = true) :
    out.cal_acceleration = apply_calibration input.acceleration last.res.scale
      last.res.offset ∧
    out.cal_acceleration.length = input.acceleration.length ∧
    out.time = input.time ∧
    (∀ (t : List Vec3) (s o : Vec3),
      (apply_calibration t s o).length = t.length ∧
      ∀ j, j < t.length →
        (apply_calibration t s o).getD j ⟨0, 0, 0⟩ =
          ⟨(t.getD j ⟨0, 0, 0⟩).x * s.x + o.x, (t.getD j ⟨0, 0, 0⟩).y * s.y + o.y,
            (t.getD j ⟨0, 0, 0⟩).z * s.z + o.z⟩) := by
  have hgeneric : ∀ (t : List Vec3) (s o : Vec3),
      (apply_calibration t s o).length = t.length ∧
      ∀ j, j < t.length →
        (apply_calibration t s o).getD j ⟨0, 0, 0⟩ =
          ⟨(t.getD j ⟨0, 0, 0⟩).x * s.x + o.x, (t.getD j ⟨0, 0, 0⟩).y * s.y + o.y,
            (t.getD j ⟨0, 0, 0⟩).z * s.z + o.z⟩ := by
    intro t s o
    refine ⟨by simp [apply_calibration], ?_⟩
    intro j hj
    rw [List.getD, List.getD, apply_calibration]
    rw [List.get?_map, List.get?_eq_get hj]
    rfl
  rw [start_ggir_calibration] at h
  by_cases hlt : (input.acceleration.length : ℤ) <
      (mkCtx P norm3 input sphere_crit min_hours sd_crit max_iter tol).nh
  · rw [calRun_insufficient _ hlt, CalOutcome.ok.injEq] at h
    rw [← h.1] at hlast
    simp [List.getLast?] at hlast
  · obtain ⟨last2, hlast2, hgood, hdisj⟩ :=
      calRun_ok_spec (mkCtx P norm3 input sphere_crit min_hours sd_crit max_iter tol)
        (not_lt.mp hlt) tr ws out h
    have hsame : last = last2 := by
      rw [hlast2] at hlast
      exact ((Option.some.injEq _ _).mp hlast).symm
    subst hsame
    cases hdisj with
    | inl hok =>
      rw [hok.2.2]
      exact ⟨rfl, by simp [acceptedOut, apply_calibration, mkCtx], rfl, hgeneric⟩
    | inr hbad => rw [hfin] at hbad; exact absurd hbad.1 (by simp)

/-- Witness for C3 at the accepted two-round run, with the generic transform
contract checked at a concrete one-row table and index 0. -/
theorem calibrate_full_apply_witness :
    outAccept.cal_acceleration = apply_calibration inAccept.acceleration
      fitResDiag.scale fitResDiag.offset ∧
    outAccept.cal_acceleration.length = inAccept.acceleration.length ∧
    outAccept.time = inAccept.time ∧
    ((apply_calibration [⟨4, 5, 6⟩] ⟨2, 2, 2⟩ ⟨1, 1, 1⟩).length =
      ([⟨4, 5, 6⟩] : List Vec3).length ∧
     (apply_calibration [⟨4, 5, 6⟩] ⟨2, 2, 2⟩ ⟨1, 1, 1⟩).getD 0 ⟨0, 0, 0⟩ =
       ⟨(([⟨4, 5, 6⟩] : List Vec3).getD 0 ⟨0, 0, 0⟩).x * (2:ℚ) + 1,
        (([⟨4, 5, 6⟩] : List Vec3).getD 0 ⟨0, 0, 0⟩).y * (2:ℚ) + 1,
        (([⟨4, 5, 6⟩] : List Vec3).getD 0 ⟨0, 0, 0⟩).z * (2:ℚ) + 1⟩) := by
  have h := calibrate_full_apply stillProviders normL1 inAccept (3/10) 1
    (13/1000) 10 (1/10000000000) trAccept [] outAccept
    (by rw [show (.ok trAccept [] outAccept : CalOutcome) =
      (.ok [⟨1, [⟨3/2, 3/2, 3/2⟩], [0], ⟨false, ⟨0,0,0⟩, ⟨1,1,1⟩, 0, 0, 0⟩⟩,
         ⟨13, [⟨3/2, 3/2, 3/2⟩, ⟨-(3/2), -(3/2), -(3/2)⟩], [0, 1],
            ⟨true, ⟨0,0,0⟩, ⟨2/9,2/9,2/9⟩, 7/2, 0, 3⟩⟩] []
      ⟨[⟨1/3, 1/3, 1/3⟩, ⟨-(1/3), -(1/3), -(1/3)⟩], .vec ⟨2/9,2/9,2/9⟩, .vec ⟨0,0,0⟩,
        1/3600, 7/2, 0, [0, 1], []⟩ : CalOutcome) from rfl]; exact scenAccept)
    ⟨13, [⟨3/2, 3/2, 3/2⟩, ⟨-(3/2), -(3/2), -(3/2)⟩], [0, 1], fitResDiag⟩ rfl rfl
  refine ⟨h.1, h.2.1, h.2.2.1, (h.2.2.2 [⟨4, 5, 6⟩] ⟨2, 2, 2⟩ ⟨1, 1, 1⟩).1,
    (h.2.2.2 [⟨4, 5, 6⟩] ⟨2, 2, 2⟩ ⟨1, 1, 1⟩).2 0 (by decide)⟩

/-- C4: both diagnostic failure outcomes return the raw acceleration table
unmodified with scalar-zero scale and offset, zero errors and the original
time sequence, plus a warning-level advisory: the data-insufficiency
short-circuit emits `insufficientData`, and a run whose last fit is rejected
(the window having reached the whole dataset) emits the hour-range
`calibrationInvalid` advisory. -/
theorem calibrate_failure_neutral (P : Providers) (norm3 : Vec3 → ℚ)
    (input : InputData) (sphere_crit : ℚ) (min_hours : ℤ) (sd_crit : ℚ)
    (max_iter : ℕ) (tol : ℚ) :
    ((input.acceleration.length : ℤ) <
        (mkCtx P norm3 input sphere_crit min_hours sd_crit max_iter tol).nh →
      start_ggir_calibration P norm3 input sphere_crit min_hours sd_crit max_iter
        tol = .ok [] [.insufficientData]
          ⟨input.acceleration, .int 0, .int 0, input.sampling_rate, 0, 0,
            input.time, input.aux⟩) ∧
    (∀ (tr : List Attempt) (ws : List Advisory) (out : OutputData) (last : Attempt),
      start_ggir_calibration P norm3 input sphere_crit min_hours sd_crit max_iter
        tol = .ok tr ws out →
      tr.getLast? = some last → last.res.finished = false →
      out = ⟨input.acceleration, .int 0, .int 0, input.sampling_rate, 0, 0,
        input.time, input.aux⟩ ∧
      ∃ j : ℤ, ws = [.calibrationInvalid (min_hours + (j - 1) * 12)
        (min_hours + j * 12)]) := by
  constructor
  · intro hlt
    rw [start_ggir_calibration]
    exact calRun_insufficient _ hlt
  · intro tr ws out last h hlast hfin
    rw [start_ggir_calibration] at h
    by_cases hlt : (input.acceleration.length : ℤ) <
        (mkCtx P norm3 input sphere_crit min_hours sd_crit max_iter tol).nh
    · rw [calRun_insufficient _ hlt, CalOutcome.ok.injEq] at h
      rw [← h.1] at hlast
      simp [List.getLast?] at hlast
    · obtain ⟨last2, hlast2, hgood, hdisj⟩ :=
        calRun_ok_spec (mkCtx P norm3 input sphere_crit min_hours sd_crit max_iter
          tol) (not_lt.mp hlt) tr ws out h
      have hsame : last = last2 := by
        rw [hlast2] at hlast
        exact ((Option.some.injEq _ _).mp hlast).symm
      subst hsame
      cases hdisj with
      | inl hok => rw [hfin] at hok; exact absurd hok.1 (by simp)
      | inr hbad =>
        obtain ⟨_, _, hout, j, _, hws⟩ := hbad
        exact ⟨hout, j, hws⟩

/-- Witness for C4: the insufficiency branch at a one-sample input with
`min_hours = 2`, and the invalid branch at the all-zero two-round run. -/
theorem calibrate_failure_neutral_witness :
    (start_ggir_calibration stillProviders normL1 inNoStill (3/10) 2 (13/1000) 10
      (1/10000000000) = .ok [] [.insufficientData]
        ⟨inNoStill.acceleration, .int 0, .int 0, inNoStill.sampling_rate, 0, 0,
          inNoStill.time, inNoStill.aux⟩) ∧
    ((⟨inFlat.acceleration, .int 0, .int 0, inFlat.sampling_rate, 0, 0,
        inFlat.time, inFlat.aux⟩ : OutputData) =
      ⟨inFlat.acceleration, .int 0, .int 0, inFlat.sampling_rate, 0, 0,
        inFlat.time, inFlat.aux⟩ ∧
     ∃ j : ℤ, [Advisory.calibrationInvalid 1 13] =
       [.calibrationInvalid (1 + (j - 1) * 12) (1 + j * 12)]) :=
  ⟨(calibrate_failure_neutral stillProviders normL1 inNoStill (3/10) 2 (13/1000)
      10 (1/10000000000)).1 (by norm_num [mkCtx, inNoStill, pyInt]),
   (calibrate_failure_neutral stillProviders normL1 inFlat (3/10) 1 (13/1000)
      10 (1/10000000000)).2
     [⟨1, [⟨0, 0, 0⟩], [0], fitResRej⟩, ⟨13, [⟨0, 0, 0⟩, ⟨0, 0, 0⟩], [0, 1], fitResRej⟩]
     [Advisory.calibrationInvalid 1 13]
     ⟨inFlat.acceleration, .int 0, .int 0, inFlat.sampling_rate, 0, 0,
       inFlat.time, inFlat.aux⟩
     ⟨13, [⟨0, 0, 0⟩, ⟨0, 0, 0⟩], [0, 1], fitResRej⟩
     (by rw [show (.ok [⟨1, [⟨0, 0, 0⟩], [0], fitResRej⟩,
         ⟨13, [⟨0, 0, 0⟩, ⟨0, 0, 0⟩], [0, 1], fitResRej⟩]
         [Advisory.calibrationInvalid 1 13]
         ⟨inFlat.acceleration, .int 0, .int 0, inFlat.sampling_rate, 0, 0,
           inFlat.time, inFlat.aux⟩ : CalOutcome) =
       (.ok [⟨1, [⟨0, 0, 0⟩], [0], ⟨false, ⟨0,0,0⟩, ⟨1,1,1⟩, 0, 0, 0⟩⟩,
         ⟨13, [⟨0, 0, 0⟩, ⟨0, 0, 0⟩], [0, 1], ⟨false, ⟨0,0,0⟩, ⟨1,1,1⟩, 0, 0, 0⟩⟩]
        [.calibrationInvalid 1 13]
        ⟨[⟨0, 0, 0⟩, ⟨0, 0, 0⟩], .int 0, .int 0, 1/3600, 0, 0, [0, 1], []⟩ :
          CalOutcome) from rfl]; exact scenFlat)
     rfl rfl⟩

/-- C10 (amended): (i) whenever `n12h ≥ 1`, the expanding-window loop
terminates — its fuel is never exhausted — and when it returns normally after
entering the loop it has made at most `1 + ⌈(N - nh) / n12h⌉` fit attempts;
(ii) the regression loop inside the fitter performs at most `max_iter`
rounds. -/
theorem calibrate_termination (P : Providers) (norm3 : Vec3 → ℚ)
    (input : InputData) (sphere_crit : ℚ) (min_hours : ℤ) (sd_crit : ℚ)
    (max_iter : ℕ) (tol : ℚ) :
    (1 ≤ (mkCtx P norm3 input sphere_crit min_hours sd_crit max_iter tol).n12h →
      (∀ tr2, start_ggir_calibration P norm3 input sphere_crit min_hours sd_crit
        max_iter tol ≠ .fuelOut tr2) ∧
      (∀ (tr : List Attempt) (ws : List Advisory) (out : OutputData),
        start_ggir_calibration P norm3 input sphere_crit min_hours sd_crit
          max_iter tol = .ok tr ws out →
        (mkCtx P norm3 input sphere_crit min_hours sd_crit max_iter tol).nh ≤
          (input.acceleration.length : ℤ) →
        (tr.length : ℤ) ≤ 1 + ceilD ((input.acceleration.length : ℤ) -
          (mkCtx P norm3 input sphere_crit min_hours sd_crit max_iter tol).nh)
          (mkCtx P norm3 input sphere_crit min_hours sd_crit max_iter tol).n12h)) ∧
    (∀ (accel_data : List Vec3) (time_data : List ℚ) (r : FitResult),
      closest_point_fit P norm3 accel_data time_data sd_crit sphere_crit max_iter
        tol = .ok r → r.iters ≤ max_iter) := by
  constructor
  · intro hb
    constructor
    · intro tr2
      rw [start_ggir_calibration]
      exact calRun_no_fuelOut _ hb tr2
    · intro tr ws out h hnh
      rw [start_ggir_calibration] at h
      obtain ⟨last, hlast, hgood, _⟩ :=
        calRun_ok_spec (mkCtx P norm3 input sphere_crit min_hours sd_crit max_iter
          tol) hnh tr ws out h
      have haccel : (mkCtx P norm3 input sphere_crit min_hours sd_crit max_iter
          tol).accel = input.acceleration := rfl
      have hlen := GoodTail_length
        (mkCtx P norm3 input sphere_crit min_hours sd_crit max_iter tol) hb tr 0
        hgood (by rw [winAt, haccel]; omega)
      rw [winAt, haccel] at hlen
      simpa using hlen
  · intro accel_data time_data r h
    simp only [closest_point_fit] at h
    cases hsc : sphereCount (noMotionSet P accel_data time_data sd_crit)
        sphere_crit with
    | error e => simp only [hsc] at h; exact absurd h (by simp)
    | ok c =>
      simp only [hsc] at h
      by_cases hc : c = 3
      · subst hc
        rw [if_neg (by simp)] at h
        have hst := runFit_iters norm3 (noMotionSet P accel_data time_data sd_crit)
          tol max_iter 0 (initFitState (noMotionSet P accel_data time_data sd_crit))
        rw [initFitState] at hst
        split at h <;>
          · rw [Except.ok.injEq] at h
            subst h
            simpa [fitFinalState, initFitState] using hst
      · rw [if_pos hc, Except.ok.injEq] at h
        subst h
        simp

/-- Witness for C10 at the accepted two-round run (`n12h = 12`). -/
theorem calibrate_termination_witness :
    (start_ggir_calibration stillProviders normL1 inAccept (3/10) 1 (13/1000) 10
      (1/10000000000) ≠ .fuelOut []) ∧
    ((trAccept.length : ℤ) ≤ 1 + ceilD ((inAccept.acceleration.length : ℤ) -
      (mkCtx stillProviders normL1 inAccept (3/10) 1 (13/1000) 10
        (1/10000000000)).nh)
      (mkCtx stillProviders normL1 inAccept (3/10) 1 (13/1000) 10
        (1/10000000000)).n12h) ∧
    fitResDiag.iters ≤ 10 :=
  ⟨((calibrate_termination stillProviders normL1 inAccept (3/10) 1 (13/1000) 10
      (1/10000000000)).1 (by norm_num [mkCtx, inAccept, pyInt])).1 [],
   ((calibrate_termination stillProviders normL1 inAccept (3/10) 1 (13/1000) 10
      (1/10000000000)).1 (by norm_num [mkCtx, inAccept, pyInt])).2 trAccept []
     outAccept
     (by rw [show (.ok trAccept [] outAccept : CalOutcome) =
       (.ok [⟨1, [⟨3/2, 3/2, 3/2⟩], [0], ⟨false, ⟨0,0,0⟩, ⟨1,1,1⟩, 0, 0, 0⟩⟩,
         ⟨13, [⟨3/2, 3/2, 3/2⟩, ⟨-(3/2), -(3/2), -(3/2)⟩], [0, 1],
            ⟨true, ⟨0,0,0⟩, ⟨2/9,2/9,2/9⟩, 7/2, 0, 3⟩⟩] []
       ⟨[⟨1/3, 1/3, 1/3⟩, ⟨-(1/3), -(1/3), -(1/3)⟩], .vec ⟨2/9,2/9,2/9⟩,
         .vec ⟨0,0,0⟩, 1/3600, 7/2, 0, [0, 1], []⟩ : CalOutcome) from rfl]; exact scenAccept)
     (by norm_num [mkCtx, inAccept, pyInt]),
   (calibrate_termination stillProviders normL1 inAccept (3/10) 1 (13/1000) 10
      (1/10000000000)).2 [⟨3/2, 3/2, 3/2⟩, ⟨-(3/2), -(3/2), -(3/2)⟩] [0, 1]
     fitResDiag fitAccept⟩

/-- Counterexample for C10 as stated: with a sampling rate small enough that a
12-hour block rounds down to zero samples (`n12h = 0`) but `nh = 1 ≤ N = 2`,
the window never grows, every round re-fits the same one-sample window, and
the loop never terminates: the embedded fuel (5) is exhausted after 5 recorded
fit attempts, although the claimed bound `1 + ⌈(N - nh)/n12h⌉` evaluates (with
division by zero read as 0) to 1. -/
theorem calibrate_termination_cx :
    (start_ggir_calibration stillProviders normL1 inNoGrow (3/10) 13 (13/1000) 10
      (1/10000000000)).isFuelOut = true ∧
    (start_ggir_calibration stillProviders normL1 inNoGrow (3/10) 13 (13/1000) 10
      (1/10000000000)).attemptCount = 5 ∧
    1 + ceilD ((2 : ℤ) - 1) 0 < 5 :=
  ⟨by rw [scenNoGrow]; rfl, by rw [scenNoGrow]; rfl, by decide⟩

/-- C8 (as the code actually behaves): on exactly `min_hours` of data with no
stillness anywhere, the fitter does not return a not-accepted result — the
whole run aborts with the `TypeError` raised when the sphere-coverage check
compares the `None` min/max of the empty working set with a float.  The second
conjunct records that the input is exactly `nh` samples long. -/
theorem calibrate_no_stillness_raises :
    start_ggir_calibration busyProviders normL1 inNoStill (3/10) 1 (13/1000) 10
      (1/10000000000) = .pyError .typeError ∧
    (inNoStill.acceleration.length : ℤ) =
      (mkCtx busyProviders normL1 inNoStill (3/10) 1 (13/1000) 10
        (1/10000000000)).nh :=
  ⟨scenNoStill, by norm_num [mkCtx, inNoStill, pyInt]⟩

/-- C9 (as the code actually behaves): the entry point performs no input
validation.  On an input with a non-positive sampling rate and mismatched
acceleration/time row counts, the call is not rejected with a validation
failure: it proceeds into the fitting loop and dies there with an incidental
`TypeError`. -/
theorem calibrate_no_validation :
    start_ggir_calibration stillProviders normL1 inZeroRate (3/10) 72 (13/1000)
      10 (1/10000000000) = .pyError .typeError ∧
    inZeroRate.acceleration.length ≠ inZeroRate.time.length ∧
    inZeroRate.sampling_rate ≤ 0 :=
  ⟨scenZeroRate, by decide, by norm_num [inZeroRate]⟩

end Wristpy
